import Mathlib

/-!
Shallow embedding of the tempcke/httputil repository: the adaptive
rate limiter (ratelimiter.go), the header bag (request.go) and the
client dispatcher with its bounded 429-retry loop (client.go).

Modelling conventions:
* Go float64 rate values are embedded as exact rationals.
* The Go nil pointer receiver of the RateLimiter methods is embedded as
  an `Option RateLimiter` argument (none = nil receiver).
* The external token bucket (golang.org/x/time/rate.Limiter) is embedded
  as its configuration pair (limit, burst) `RateBucket`; its blocking
  Wait is an external collaborator, so its per-call result is injected
  as an `Option Err` (none = ok, some e = cancellation/error).
* http.Header value lists are flattened to a list of key/value pairs;
  header.Add appends a pair, and per-pair multiplicities are what the
  theorems measure.
* The HTTP transport is an external collaborator injected as a function
  from the attempt number and the outgoing request to an outcome, which
  is either a response or a transport error (Go (res, err) with exactly
  one of the two non-nil).
-/

/-- Error values (Go `error`). -/
abbrev Err := String

/-- Go `MaxAllowedCallsPerSecond = float64(math.MaxInt32)` from ratelimiter.go. -/
def MaxAllowedCallsPerSecond : ℚ := 2147483647

/-- Go `DefaultBurst = 1` from ratelimiter.go. -/
def DefaultBurst : ℤ := 1

/-- Go `DefaultCPSChangePercent = 0.1` from ratelimiter.go. -/
def DefaultCPSChangePercent : ℚ := 1/10

/-- Go `HeaderReqID = "X-Request-ID"` from client.go. -/
def HeaderReqID : String := "X-Request-ID"

/-- Go `http.StatusTooManyRequests` (429). -/
def statusTooManyRequests : ℤ := 429

/-- Configuration state of the backing golang.org/x/time/rate.Limiter:
its refill rate (limit) and bucket size (burst). -/
structure RateBucket where
  limit : ℚ
  burst : ℤ
deriving Repr, DecidableEq

/-- The `RateLimiter` struct of ratelimiter.go: an optional backing
bucket and the adaptive change percentage. -/
structure RateLimiter where
  Limiter : Option RateBucket
  changePercent : ℚ
deriving Repr, DecidableEq

/-- A Go `*RateLimiter`: either nil or a pointed-to `RateLimiter`. -/
abbrev RLRef := Option RateLimiter

/-- Go `func (r *RateLimiter) Limit() float64` from ratelimiter.go. -/
def RateLimiter.Limit : RLRef → ℚ
  | none => MaxAllowedCallsPerSecond
  | some s =>
    match s.Limiter with
    | none => MaxAllowedCallsPerSecond
    | some b => b.limit

/-- Go `func (r *RateLimiter) SetLimit(refillRate float64)` from
ratelimiter.go; returns the updated referent (nil receiver: no-op). -/
def RateLimiter.SetLimit : RLRef → ℚ → RLRef
  | none, _ => none
  | some s, r =>
    match s.Limiter with
    | none => some { s with Limiter := some { limit := r, burst := DefaultBurst } }
    | some b => some { s with Limiter := some { b with limit := r } }

/-- Go `func (r *RateLimiter) SlowDown()` from ratelimiter.go:
`r.SetLimit(r.Limit() * (1 - r.changePercent))` unless absent. -/
def RateLimiter.SlowDown (rl : RLRef) : RLRef :=
  match rl with
  | none => none
  | some s =>
    match s.Limiter with
    | none => some s
    | some _ => RateLimiter.SetLimit (some s) (RateLimiter.Limit (some s) * (1 - s.changePercent))

/-- Go `func (r *RateLimiter) SpeedUp()` from ratelimiter.go:
`r.SetLimit(r.Limit() / (1 - r.changePercent))` unless absent. -/
def RateLimiter.SpeedUp (rl : RLRef) : RLRef :=
  match rl with
  | none => none
  | some s =>
    match s.Limiter with
    | none => some s
    | some _ => RateLimiter.SetLimit (some s) (RateLimiter.Limit (some s) / (1 - s.changePercent))

/-- Go `func (r *RateLimiter) SetBurst(burst int)` from ratelimiter.go. -/
def RateLimiter.SetBurst (rl : RLRef) (burst : ℤ) : RLRef :=
  match rl with
  | none => none
  | some s =>
    match s.Limiter with
    | none => some s
    | some b => some { s with Limiter := some { b with burst := burst } }

/-- Go `func (r *RateLimiter) Burst() int` from ratelimiter.go. -/
def RateLimiter.Burst (rl : RLRef) : ℤ :=
  match rl with
  | none => DefaultBurst
  | some s =>
    match s.Limiter with
    | none => DefaultBurst
    | some b => b.burst

/-- Go `func (r *RateLimiter) Wait(ctx context.Context) error` from
ratelimiter.go.  `bucketWait` is the result the external backing
bucket's Wait would produce for this call (only consulted when a
backing bucket is present). -/
def RateLimiter.Wait (rl : RLRef) (bucketWait : Option Err) : Option Err :=
  match rl with
  | none => none
  | some s =>
    match s.Limiter with
    | none => none
    | some _ => bucketWait

/-- Go `func (r *RateLimiter) Do(ctx, doFn)` from ratelimiter.go: Wait,
then run doFn, returning the first error.  The operation is modelled as
a state transformer so that its invocations are observable. -/
def RateLimiter.Do {σ : Type} (rl : RLRef) (bucketWait : Option Err)
    (doFn : σ → σ × Option Err) (s : σ) : σ × Option Err :=
  match RateLimiter.Wait rl bucketWait with
  | some e => (s, some e)
  | none =>
    match doFn s with
    | (s1, some e) => (s1, some e)
    | (s1, none) => (s1, none)

/-- An option passed to `NewRateLimiter` (Go `RateLimitOption`),
acting on the freshly allocated (non-nil) struct. -/
def RateLimitOption := RateLimiter → RateLimiter

/-- Go `func RateLimitChangePercent(percent float64) RateLimitOption`. -/
def RateLimitChangePercent (percent : ℚ) : RateLimitOption :=
  fun s => { s with changePercent := percent }

/-- Go `func NewRateLimiter(limit float64, options ...RateLimitOption)`. -/
def NewRateLimiter (limit : ℚ) (options : List RateLimitOption := []) : RLRef :=
  some (options.foldl (fun s o => o s)
    { Limiter := some { limit := limit, burst := DefaultBurst },
      changePercent := DefaultCPSChangePercent })

/-- The `ReqHeaders` struct of request.go: the optional request id and
the backing header bag (flattened key/value pairs). -/
structure ReqHeaders where
  ReqID : String
  h : List (String × String)
deriving Repr, DecidableEq

/-- Go `func (r *ReqHeaders) AddHeader(key string, vals ...string)`:
appends each value under the key. -/
def ReqHeaders.AddHeader (r : ReqHeaders) (key : String) (vals : List String) : ReqHeaders :=
  { r with h := r.h ++ vals.map (fun v => (key, v)) }

/-- Go `func (r *ReqHeaders) Header() http.Header` from request.go: when
ReqID is non-empty it first Add-s it under X-Request-ID (mutating the
bag), then returns the bag.  Returns (updated bag, returned header). -/
def ReqHeaders.Header (r : ReqHeaders) : ReqHeaders × List (String × String) :=
  let r1 := if r.ReqID ≠ "" then r.AddHeader HeaderReqID [r.ReqID] else r
  (r1, r1.h)

/-- The state change one `Header()` call makes to the bag. -/
def ReqHeaders.headerStep (r : ReqHeaders) : ReqHeaders :=
  (ReqHeaders.Header r).1

/-- Multiplicity of the pair (key, v) in a flattened header bag. -/
def countKV (key v : String) : List (String × String) → ℕ
  | [] => 0
  | p :: ps => (if p = (key, v) then 1 else 0) + countKV key v ps

/-- The parts of an http.Request the dispatcher reads or writes. -/
structure Request where
  method : String
  urlPath : String
  rawQuery : String
  header : List (String × String)
deriving Repr, DecidableEq

/-- The parts of an http.Response the dispatcher reads. -/
structure Response where
  statusCode : ℤ
  status : String
  header : List (String × String)
deriving Repr, DecidableEq

/-- One transport call's outcome: Go (res, err) with exactly one of
the two non-nil. -/
inductive Outcome where
  | err (e : Err)
  | res (r : Response)
deriving Repr, DecidableEq

/-- Log severities of the LevelLogger collaborator. -/
inductive Level where
  | info
  | warn
  | error
deriving Repr, DecidableEq

/-- One record handed to the logging collaborator by logRqRs. -/
structure LogEvent where
  level : Level
  method : String
  path : String
  query : String
  reqHeader : List (String × String)
  resStatusCode : Option ℤ
  resHeader : Option (List (String × String))
  errMsg : Option Err
deriving Repr, DecidableEq

/-- Go `func (c Client) logRqRs(req, res, err)` from client.go: on a
transport error it logs at Error with the request fields and the error;
on a response it logs the request fields plus status/headers, at Warn
when StatusCode >= 400 and at Info otherwise.  (The best-effort body
capture is external I/O on the response body and does not affect the
level or the fields modelled here.) -/
def logRqRs (req : Request) (oc : Outcome) : LogEvent :=
  match oc with
  | Outcome.err e =>
    { level := Level.error, method := req.method, path := req.urlPath,
      query := req.rawQuery, reqHeader := req.header,
      resStatusCode := none, resHeader := none, errMsg := some e }
  | Outcome.res r =>
    { level := if r.statusCode ≥ 400 then Level.warn else Level.info,
      method := req.method, path := req.urlPath,
      query := req.rawQuery, reqHeader := req.header,
      resStatusCode := some r.statusCode, resHeader := some r.header,
      errMsg := none }

/-- Go `func reqWithHeaders(req *http.Request, headerMaps ...http.Header)`
from request.go: Add-s every value of every key onto the request's
header, in place. -/
def reqWithHeaders (req : Request) (headers : List (String × String)) : Request :=
  { req with header := req.header ++ headers }

/-- The dispatcher-relevant configuration of the `Client` struct of
client.go (value receiver; the header bag it embeds is shared mutable
state and lives in `DState`). -/
structure Client where
  ReqID : String
  RetriesOn429 : ℤ
deriving Repr, DecidableEq

/-- External collaborators of one dispatch: the transport (indexed by
the number of transport calls already made) and the backing bucket's
Wait results (indexed by the number of Wait calls already made). -/
structure Env where
  transport : ℕ → Request → Outcome
  bucketWait : ℕ → Option Err

/-- Mutable state threaded through one logical `Client.Do` dispatch:
the client's shared header bag, the caller's request (mutated in
place), the shared rate limiter, the log, and call counters. -/
structure DState where
  clientH : List (String × String)
  req : Request
  rl : RLRef
  log : List LogEvent
  doCalls : ℕ
  tpCalls : ℕ

/-- Go `func (c Client) do(req)` from client.go: Wait on the limiter
(surfacing its error), add the client's headers (via `c.Header()`,
which also mutates the shared bag) onto the request, call the
transport, log the attempt, and SlowDown on a 429. -/
def Client.doAttempt (c : Client) (env : Env) (s : DState) : DState × Except Err Response :=
  match RateLimiter.Wait s.rl (env.bucketWait s.doCalls) with
  | some e => ({ s with doCalls := s.doCalls + 1 }, Except.error e)
  | none =>
    let hp := ReqHeaders.Header { ReqID := c.ReqID, h := s.clientH }
    let req1 := reqWithHeaders s.req hp.2
    let oc := env.transport s.tpCalls req1
    let ev := logRqRs req1 oc
    let rl1 :=
      match oc with
      | Outcome.res r =>
        if r.statusCode = statusTooManyRequests then RateLimiter.SlowDown s.rl else s.rl
      | Outcome.err _ => s.rl
    let out :=
      match oc with
      | Outcome.err e => Except.error e
      | Outcome.res r => Except.ok r
    ({ clientH := hp.1.h, req := req1, rl := rl1, log := s.log ++ [ev],
       doCalls := s.doCalls + 1, tpCalls := s.tpCalls + 1 }, out)

/-- The retry loop of `func (c Client) Do(req)`: while the result is a
response with status 429 and retries remain, attempt again.  The fuel
is the number of retries still allowed (`tries < c.RetriesOn429`). -/
def Client.doLoop (c : Client) (env : Env) :
    ℕ → DState → Except Err Response → DState × Except Err Response
  | 0, s, r => (s, r)
  | Nat.succ k, s, r =>
    match r with
    | Except.ok resp =>
      if resp.statusCode = statusTooManyRequests then
        let a := Client.doAttempt c env s
        Client.doLoop c env k a.1 a.2
      else (s, r)
    | Except.error _ => (s, r)

/-- Go `func (c Client) Do(req)` from client.go: first attempt, then the
bounded retry loop.  A non-positive RetriesOn429 allows no retries,
exactly as the Go loop condition `tries < c.RetriesOn429` does. -/
def Client.Do (c : Client) (env : Env) (s : DState) : DState × Except Err Response :=
  let a := Client.doAttempt c env s
  Client.doLoop c env c.RetriesOn429.toNat a.1 a.2

/-- The headers pulled from the client's bag by one attempt
(`c.Header()` inside `Client.do`). -/
def pulledHeaders (c : Client) (s : DState) : List (String × String) :=
  (ReqHeaders.Header { ReqID := c.ReqID, h := s.clientH }).2

/-- The outgoing request of one attempt
(`reqWithHeaders(req, c.Header())` inside `Client.do`). -/
def attemptReq (c : Client) (s : DState) : Request :=
  reqWithHeaders s.req (pulledHeaders c s)

/-- A rate limiter built as `NewRateLimiter(100, RateLimitChangePercent(2))`:
the constructor accepts any change percentage, also ones at or above 1. -/
def rlC3 : RLRef := NewRateLimiter 100 [RateLimitChangePercent 2]

/-- A concrete request for evaluating the logger. -/
def reqC4 : Request :=
  { method := "GET", urlPath := "/", rawQuery := "", header := [] }

/-- A concrete 500 response (no transport error). -/
def resC4 : Response :=
  { statusCode := 500, status := "500 Internal Server Error", header := [] }

/-- A concrete 200 response. -/
def resp200 : Response :=
  { statusCode := 200, status := "200 OK", header := [] }

/-- A header bag whose request id is set and whose map already holds
one copy of the X-Request-ID header. -/
def rhC9 : ReqHeaders :=
  { ReqID := "id-1", h := [(HeaderReqID, "id-1")] }

/-- A transport that answers 429 on every attempt; the bucket Wait
always succeeds. -/
def env429 : Env :=
  { transport := fun _ _ =>
      Outcome.res { statusCode := 429, status := "429 Too Many Requests", header := [] },
    bucketWait := fun _ => none }

/-- A transport that answers 200 on every attempt; the bucket Wait
always succeeds. -/
def env200 : Env :=
  { transport := fun _ _ => Outcome.res resp200, bucketWait := fun _ => none }

/-- A transport that fails on every attempt; the bucket Wait always
succeeds. -/
def envErr : Env :=
  { transport := fun _ _ => Outcome.err ("transport down"), bucketWait := fun _ => none }

/-- A client with no request id and two retries on 429. -/
def cW1 : Client := { ReqID := "", RetriesOn429 := 2 }

/-- A client with no request id and one retry on 429. -/
def cW10 : Client := { ReqID := "", RetriesOn429 := 1 }

/-- A fresh dispatch state: empty client bag, bare GET request, absent
limiter. -/
def s0W : DState :=
  { clientH := [], req := { method := "GET", urlPath := "/", rawQuery := "", header := [] },
    rl := none, log := [], doCalls := 0, tpCalls := 0 }

/-- A dispatch state whose request already carries the very header
value the client stores. -/
def sC10 : DState :=
  { clientH := [("X-Foo", "foo")],
    req := { method := "GET", urlPath := "/", rawQuery := "", header := [("X-Foo", "foo")] },
    rl := none, log := [], doCalls := 0, tpCalls := 0 }

/-- A dispatch state with one stored client header and a clean request. -/
def sC10W : DState :=
  { clientH := [("X-Foo", "foo")],
    req := { method := "GET", urlPath := "/", rawQuery := "", header := [] },
    rl := none, log := [], doCalls := 0, tpCalls := 0 }

/-- Wait never errors when the backing bucket reports success. -/
theorem wait_none (rl : RLRef) : RateLimiter.Wait rl none = none := by
  rcases rl with _ | ⟨l, p⟩
  · rfl
  · cases l <;> rfl

/-- Iterated SlowDown on a limiter with a backing bucket multiplies
the rate by (1 - changePercent) each time. -/
theorem slowDown_iter (b : RateBucket) (p : ℚ) (n : ℕ) :
    RateLimiter.SlowDown^[n] (some { Limiter := some b, changePercent := p }) =
      some { Limiter := some { limit := b.limit * (1 - p) ^ n, burst := b.burst },
             changePercent := p } := by
  induction n with
  | zero => simp
  | succ n ih =>
    rw [Function.iterate_succ_apply', ih]
    show (some { Limiter := some { limit := b.limit * (1 - p) ^ n * (1 - p), burst := b.burst },
                 changePercent := p } : RLRef) =
      some { Limiter := some { limit := b.limit * (1 - p) ^ (n + 1), burst := b.burst },
             changePercent := p }
    rw [pow_succ, mul_assoc]

/-- Claim C2: on a limiter with a backing bucket at rate r0 and change
percentage p in (0,1), SlowDown followed by SpeedUp restores the rate:
Limit() afterwards equals r0 (exactly, in the exact-arithmetic
embedding of the float64 rates, so a fortiori within any tolerance). -/
theorem C2_slowdown_speedup_inverse (b : RateBucket) (p r0 : ℚ)
    (hp : 0 < p) (hp1 : p < 1) (hb : b.limit = r0) :
    RateLimiter.Limit
      (RateLimiter.SpeedUp
        (RateLimiter.SlowDown (some { Limiter := some b, changePercent := p }))) = r0 := by
  show b.limit * (1 - p) / (1 - p) = r0
  rw [mul_div_cancel_right₀ _ (sub_ne_zero.mpr (ne_of_gt hp1)), hb]

/-- Witness for C2 at r0 = 100, p = 1/10. -/
theorem C2_witness :
    RateLimiter.Limit
      (RateLimiter.SpeedUp
        (RateLimiter.SlowDown
          (some { Limiter := some { limit := 100, burst := 1 }, changePercent := 1/10 }))) = 100 :=
  C2_slowdown_speedup_inverse { limit := 100, burst := 1 } (1/10) 100
    (by norm_num) (by norm_num) rfl

/-- Counterexample for C3 as stated: nothing constrains changePercent
to (0,1) and nothing clamps the rate, so a limiter built with
RateLimitChangePercent(2) has its positive rate 100 driven to -100 by
a single SlowDown. -/
theorem C3_counterexample :
    RateLimiter.Limit rlC3 = 100 ∧ RateLimiter.Limit (RateLimiter.SlowDown rlC3) < 0 := by
  refine ⟨rfl, ?_⟩
  have h : RateLimiter.Limit (RateLimiter.SlowDown rlC3) = 100 * (1 - 2 : ℚ) := rfl
  rw [h]
  norm_num

/-- Claim C3 (amended): provided 0 < changePercent < 1, n applications
of SlowDown take a positive rate r to r * (1 - p)^n, which stays
strictly positive in exact arithmetic; the code applies no clamping
floor (the rate is exactly the unclamped geometric decay). -/
theorem C3_rate_positive (b : RateBucket) (p : ℚ) (n : ℕ)
    (hp : 0 < p) (hp1 : p < 1) (hpos : 0 < b.limit) :
    RateLimiter.Limit (RateLimiter.SlowDown^[n] (some { Limiter := some b, changePercent := p })) =
      b.limit * (1 - p) ^ n ∧
    0 < RateLimiter.Limit
        (RateLimiter.SlowDown^[n] (some { Limiter := some b, changePercent := p })) := by
  rw [slowDown_iter b p n]
  refine ⟨rfl, ?_⟩
  show 0 < b.limit * (1 - p) ^ n
  exact mul_pos hpos (pow_pos (by linarith) n)

/-- Witness for the amended C3 at r = 1, p = 1/2, n = 3. -/
theorem C3_witness :
    RateLimiter.Limit
        (RateLimiter.SlowDown^[3]
          (some { Limiter := some { limit := 1, burst := 1 }, changePercent := 1/2 })) =
      1 * (1 - 1/2) ^ 3 ∧
    0 < RateLimiter.Limit
        (RateLimiter.SlowDown^[3]
          (some { Limiter := some { limit := 1, burst := 1 }, changePercent := 1/2 })) :=
  C3_rate_positive { limit := 1, burst := 1 } (1/2) 3 (by norm_num) (by norm_num) (by norm_num)

/-- Claim C6: on an absent limiter (nil pointer or nil backing bucket)
every operation is an immediate no-op: Wait returns ok whatever the
bucket would have said, Limit returns the maximum sentinel, and
SetLimit (nil receiver), SlowDown, SpeedUp and SetBurst change
nothing. -/
theorem C6_absent_transparency :
    (∀ w, RateLimiter.Wait none w = none) ∧
    (∀ p w, RateLimiter.Wait (some { Limiter := none, changePercent := p }) w = none) ∧
    RateLimiter.Limit none = MaxAllowedCallsPerSecond ∧
    (∀ p, RateLimiter.Limit (some { Limiter := none, changePercent := p }) =
      MaxAllowedCallsPerSecond) ∧
    (∀ r, RateLimiter.SetLimit none r = none) ∧
    RateLimiter.SlowDown none = none ∧
    RateLimiter.SpeedUp none = none ∧
    (∀ b, RateLimiter.SetBurst none b = none) ∧
    (∀ p, RateLimiter.SlowDown (some { Limiter := none, changePercent := p }) =
      some { Limiter := none, changePercent := p }) ∧
    (∀ p, RateLimiter.SpeedUp (some { Limiter := none, changePercent := p }) =
      some { Limiter := none, changePercent := p }) ∧
    (∀ p b, RateLimiter.SetBurst (some { Limiter := none, changePercent := p }) b =
      some { Limiter := none, changePercent := p }) :=
  ⟨fun _ => rfl, fun _ _ => rfl, rfl, fun _ => rfl, fun _ => rfl, rfl, rfl,
   fun _ => rfl, fun _ => rfl, fun _ => rfl, fun _ _ => rfl⟩

/-- Claim C7: RateLimiter.Do is Wait followed by the operation with
first-error propagation: a Wait error is returned with the operation
never invoked (invocation counter stays 0, state untouched); on Wait
success the operation runs exactly once and its outcome is returned. -/
theorem C7_do_composition {σ : Type} (rl : RLRef) (w : Option Err)
    (g : σ → σ × Option Err) (s : σ) :
    (∀ e, RateLimiter.Wait rl w = some e →
      RateLimiter.Do rl w
        (fun sn => (((g sn.1).1, sn.2 + 1), (g sn.1).2)) ((s, 0) : σ × ℕ) = ((s, 0), some e)) ∧
    (RateLimiter.Wait rl w = none →
      RateLimiter.Do rl w
        (fun sn => (((g sn.1).1, sn.2 + 1), (g sn.1).2)) ((s, 0) : σ × ℕ) =
        (((g s).1, 1), (g s).2)) := by
  constructor
  · intro e he
    simp [RateLimiter.Do, he]
  · intro hok
    simp only [RateLimiter.Do, hok]
    rcases hg : (g s).2 with _ | e <;> simp [hg]

/-- Witness for C7: with a backing bucket and a cancelled Wait the
operation never runs and the cancellation is returned; with an absent
limiter the operation runs once and its (ok) outcome is returned. -/
theorem C7_witness :
    (RateLimiter.Do (some { Limiter := some { limit := 1, burst := 1 }, changePercent := 1/10 })
        (some ("context canceled"))
        (fun sn => ((((fun n : ℕ => (n + 1, (none : Option Err))) sn.1).1, sn.2 + 1),
          ((fun n : ℕ => (n + 1, (none : Option Err))) sn.1).2)) ((0, 0) : ℕ × ℕ) =
      ((0, 0), some ("context canceled"))) ∧
    (RateLimiter.Do none none
        (fun sn => ((((fun n : ℕ => (n + 1, (none : Option Err))) sn.1).1, sn.2 + 1),
          ((fun n : ℕ => (n + 1, (none : Option Err))) sn.1).2)) ((0, 0) : ℕ × ℕ) =
      ((1, 1), none)) :=
  ⟨(C7_do_composition
      (some { Limiter := some { limit := 1, burst := 1 }, changePercent := 1/10 })
      (some ("context canceled")) (fun n : ℕ => (n + 1, none)) 0).1 ("context canceled") rfl,
   (C7_do_composition none none (fun n : ℕ => (n + 1, none)) 0).2 rfl⟩

/-- Claim C8: on a non-nil limiter, SetLimit(r) makes a subsequent
Limit() return r, and when no backing bucket existed it lazily builds
one with the default burst, so Burst() then returns 1. -/
theorem C8_setLimit (s : RateLimiter) (r : ℚ) :
    RateLimiter.Limit (RateLimiter.SetLimit (some s) r) = r ∧
    (s.Limiter = none → RateLimiter.Burst (RateLimiter.SetLimit (some s) r) = 1) := by
  rcases s with ⟨l, p⟩
  cases l with
  | none => exact ⟨rfl, fun _ => rfl⟩
  | some b => exact ⟨rfl, fun h => nomatch h⟩

/-- Witness for C8 on a limiter with no backing bucket yet, at rate 5. -/
theorem C8_witness :
    RateLimiter.Limit
        (RateLimiter.SetLimit (some { Limiter := none, changePercent := 1/10 }) 5) = 5 ∧
    RateLimiter.Burst
        (RateLimiter.SetLimit (some { Limiter := none, changePercent := 1/10 }) 5) = 1 :=
  ⟨(C8_setLimit { Limiter := none, changePercent := 1/10 } 5).1,
   (C8_setLimit { Limiter := none, changePercent := 1/10 } 5).2 rfl⟩

/-- Claim C4 (divergence): the logger is invoked after an attempt with
the request fields and the response status/headers, but a 500-status
response is logged at warning level, not error level — logRqRs only
distinguishes err / status >= 400 / below, and the repository README
("as Warn if < 500, else as error level") promises an error level the
code never uses for responses. -/
theorem C4_severity_bug :
    logRqRs reqC4 (Outcome.res resC4) =
      { level := Level.warn, method := "GET", path := "/", query := "",
        reqHeader := [], resStatusCode := some 500, resHeader := some [],
        errMsg := none } ∧
    Level.warn ≠ Level.error := by
  exact ⟨rfl, by decide⟩

/-- countKV distributes over list append. -/
theorem countKV_append (key v : String) (l1 l2 : List (String × String)) :
    countKV key v (l1 ++ l2) = countKV key v l1 + countKV key v l2 := by
  induction l1 with
  | nil => simp [countKV]
  | cons p ps ih => simp [countKV, ih, Nat.add_assoc]

/-- countKV of n copies of the counted pair is n. -/
theorem countKV_replicate (key v : String) (n : ℕ) :
    countKV key v (List.replicate n (key, v)) = n := by
  induction n with
  | zero => rfl
  | succ n ih => simp [List.replicate_succ, countKV, ih, Nat.add_comm]

/-- With a non-empty ReqID, n Header() calls append n copies of the
request id pair to the bag. -/
theorem headerStep_iter (rh : ReqHeaders) (n : ℕ) (hne : rh.ReqID ≠ "") :
    ReqHeaders.headerStep^[n] rh =
      { ReqID := rh.ReqID, h := rh.h ++ List.replicate n (HeaderReqID, rh.ReqID) } := by
  induction n with
  | zero => simp
  | succ n ih =>
    rw [Function.iterate_succ_apply', ih]
    show (if rh.ReqID ≠ "" then _ else _, _).1 = _
    rw [if_pos hne]
    show ({ ReqID := rh.ReqID,
            h := (rh.h ++ List.replicate n (HeaderReqID, rh.ReqID)) ++
              [(HeaderReqID, rh.ReqID)] } : ReqHeaders) = _
    rw [List.append_assoc, ← List.replicate_succ' (n := n)]

/-- Counterexample for C9 as stated: a ReqHeaders whose bag already
holds one X-Request-ID copy (reachable via AddHeader) has 2 copies
after a single Header() call, where the claim predicts n = 1. -/
theorem C9_counterexample :
    rhC9.ReqID ≠ "" ∧
    countKV HeaderReqID ("id-1") (ReqHeaders.headerStep^[1] rhC9).h = 2 := by
  exact ⟨by decide, rfl⟩

/-- Claim C9 (amended): Header() is indeed not idempotent — with a
non-empty ReqID every call appends one more copy of the request id
under X-Request-ID, so n calls leave the initial count plus n copies
(equal to n exactly when the bag starts without that entry). -/
theorem C9_header_not_idempotent (rh : ReqHeaders) (n : ℕ) (hne : rh.ReqID ≠ "") :
    countKV HeaderReqID rh.ReqID (ReqHeaders.headerStep^[n] rh).h =
      countKV HeaderReqID rh.ReqID rh.h + n := by
  rw [headerStep_iter rh n hne]
  show countKV HeaderReqID rh.ReqID (rh.h ++ List.replicate n (HeaderReqID, rh.ReqID)) = _
  rw [countKV_append, countKV_replicate]

/-- Witness for the amended C9: an empty bag with ReqID "id" holds
exactly 2 copies after 2 calls. -/
theorem C9_witness :
    countKV HeaderReqID ("id")
        (ReqHeaders.headerStep^[2] { ReqID := "id", h := [] }).h =
      countKV HeaderReqID ("id") ([] : List (String × String)) + 2 :=
  C9_header_not_idempotent { ReqID := "id", h := [] } 2 (by decide)

/-- One attempt whose transport returns a response: Wait succeeds, the
client's headers are pulled (mutating the bag) and added to the
request, the outcome is logged, and SlowDown runs exactly when the
status is 429. -/
theorem doAttempt_res (c : Client) (env : Env) (s : DState) (resp : Response)
    (hw : ∀ n, env.bucketWait n = none)
    (hres : env.transport s.tpCalls (attemptReq c s) = Outcome.res resp) :
    Client.doAttempt c env s =
      ({ clientH := (ReqHeaders.Header { ReqID := c.ReqID, h := s.clientH }).1.h,
         req := attemptReq c s,
         rl := if resp.statusCode = statusTooManyRequests
               then RateLimiter.SlowDown s.rl else s.rl,
         log := s.log ++ [logRqRs (attemptReq c s) (Outcome.res resp)],
         doCalls := s.doCalls + 1, tpCalls := s.tpCalls + 1 }, Except.ok resp) := by
  simp only [attemptReq, pulledHeaders] at hres
  simp only [Client.doAttempt, hw, wait_none, attemptReq, pulledHeaders, hres]

/-- One attempt whose transport fails: the error is surfaced, the
attempt is logged, and the limiter is untouched. -/
theorem doAttempt_err (c : Client) (env : Env) (s : DState) (e : Err)
    (hw : ∀ n, env.bucketWait n = none)
    (herr : env.transport s.tpCalls (attemptReq c s) = Outcome.err e) :
    Client.doAttempt c env s =
      ({ clientH := (ReqHeaders.Header { ReqID := c.ReqID, h := s.clientH }).1.h,
         req := attemptReq c s,
         rl := s.rl,
         log := s.log ++ [logRqRs (attemptReq c s) (Outcome.err e)],
         doCalls := s.doCalls + 1, tpCalls := s.tpCalls + 1 }, Except.error e) := by
  simp only [attemptReq, pulledHeaders] at herr
  simp only [Client.doAttempt, hw, wait_none, attemptReq, pulledHeaders, herr]

/-- Under an always-429 transport one attempt yields a 429 response
and advances the transport-call counter by one. -/
theorem doAttempt_429 (c : Client) (env : Env) (s : DState)
    (htp : ∀ n r, ∃ resp, env.transport n r = Outcome.res resp ∧ resp.statusCode = 429)
    (hw : ∀ n, env.bucketWait n = none) :
    ∃ resp : Response, resp.statusCode = 429 ∧
      Client.doAttempt c env s =
        ({ clientH := (ReqHeaders.Header { ReqID := c.ReqID, h := s.clientH }).1.h,
           req := attemptReq c s,
           rl := RateLimiter.SlowDown s.rl,
           log := s.log ++ [logRqRs (attemptReq c s) (Outcome.res resp)],
           doCalls := s.doCalls + 1, tpCalls := s.tpCalls + 1 }, Except.ok resp) := by
  obtain ⟨resp, hres, h429⟩ := htp s.tpCalls (attemptReq c s)
  refine ⟨resp, h429, ?_⟩
  have h429' : resp.statusCode = statusTooManyRequests := h429
  rw [doAttempt_res c env s resp hw hres, if_pos h429']

/-- The retry loop stops at once on an error result. -/
theorem doLoop_error (c : Client) (env : Env) (k : ℕ) (s : DState) (e : Err) :
    Client.doLoop c env k s (Except.error e) = (s, Except.error e) := by
  cases k <;> rfl

/-- The retry loop stops at once on a non-429 response. -/
theorem doLoop_non429 (c : Client) (env : Env) (k : ℕ) (s : DState) (resp : Response)
    (h : resp.statusCode ≠ 429) :
    Client.doLoop c env k s (Except.ok resp) = (s, Except.ok resp) := by
  cases k with
  | zero => rfl
  | succ k => simp [Client.doLoop, statusTooManyRequests, h]

/-- Under an always-429 transport the loop with fuel k makes exactly k
more transport calls and still ends on a 429 response. -/
theorem doLoop_429 (c : Client) (env : Env)
    (htp : ∀ n r, ∃ resp, env.transport n r = Outcome.res resp ∧ resp.statusCode = 429)
    (hw : ∀ n, env.bucketWait n = none) :
    ∀ (k : ℕ) (s : DState) (resp : Response), resp.statusCode = 429 →
      ∃ resp2 : Response, resp2.statusCode = 429 ∧
        (Client.doLoop c env k s (Except.ok resp)).2 = Except.ok resp2 ∧
        (Client.doLoop c env k s (Except.ok resp)).1.tpCalls = s.tpCalls + k := by
  intro k
  induction k with
  | zero =>
    intro s resp h429
    exact ⟨resp, h429, rfl, rfl⟩
  | succ k ih =>
    intro s resp h429
    obtain ⟨r1, h1, hEq⟩ := doAttempt_429 c env s htp hw
    have hstep : Client.doLoop c env (k + 1) s (Except.ok resp) =
        Client.doLoop c env k (Client.doAttempt c env s).1 (Client.doAttempt c env s).2 := by
      simp [Client.doLoop, statusTooManyRequests, h429]
    have h2' : (Client.doAttempt c env s).2 = Except.ok r1 := by rw [hEq]
    have hTp : (Client.doAttempt c env s).1.tpCalls = s.tpCalls + 1 := by rw [hEq]
    obtain ⟨r2, h2, hres2, hcnt⟩ := ih (Client.doAttempt c env s).1 r1 h1
    refine ⟨r2, h2, ?_, ?_⟩
    · rw [hstep, h2']
      exact hres2
    · rw [hstep, h2', hcnt, hTp]
      omega

/-- Claim C1: with RetriesOn429 = k and a transport answering 429 on
every attempt, Client.Do makes exactly k + 1 transport calls and
returns the final 429 response as an ordinary (error-free) result. -/
theorem C1_bounded_retry (c : Client) (env : Env) (s : DState) (k : ℕ)
    (hk : c.RetriesOn429 = (k : ℤ))
    (htp : ∀ n r, ∃ resp, env.transport n r = Outcome.res resp ∧ resp.statusCode = 429)
    (hw : ∀ n, env.bucketWait n = none) :
    (Client.Do c env s).1.tpCalls = s.tpCalls + (k + 1) ∧
    ∃ resp, (Client.Do c env s).2 = Except.ok resp ∧ resp.statusCode = 429 := by
  have hfuel : c.RetriesOn429.toNat = k := by omega
  have hDo : Client.Do c env s =
      Client.doLoop c env k (Client.doAttempt c env s).1 (Client.doAttempt c env s).2 := by
    simp [Client.Do, hfuel]
  obtain ⟨r1, h1, hEq⟩ := doAttempt_429 c env s htp hw
  have h2' : (Client.doAttempt c env s).2 = Except.ok r1 := by rw [hEq]
  have hTp : (Client.doAttempt c env s).1.tpCalls = s.tpCalls + 1 := by rw [hEq]
  obtain ⟨r2, h2, hres2, hcnt⟩ := doLoop_429 c env htp hw k (Client.doAttempt c env s).1 r1 h1
  constructor
  · rw [hDo, h2', hcnt, hTp]
    omega
  · refine ⟨r2, ?_, h2⟩
    rw [hDo, h2']
    exact hres2

/-- Witness for C1 at k = 2 with a fresh dispatch state. -/
theorem C1_witness :
    (Client.Do cW1 env429 s0W).1.tpCalls = s0W.tpCalls + (2 + 1) ∧
    ∃ resp, (Client.Do cW1 env429 s0W).2 = Except.ok resp ∧ resp.statusCode = 429 :=
  C1_bounded_retry cW1 env429 s0W 2 rfl
    (fun _ _ => ⟨{ statusCode := 429, status := "429 Too Many Requests", header := [] },
      rfl, rfl⟩)
    (fun _ => rfl)

/-- Claim C5: 429 is the only outcome that retries or adjusts the
rate.  A non-429 response is returned unchanged after a single
transport call with the limiter untouched; a transport error is
surfaced immediately, never retried, and the limiter is untouched. -/
theorem C5_pass_through (c : Client) (env : Env) (s : DState)
    (hw : ∀ n, env.bucketWait n = none) :
    (∀ resp : Response, (∀ r, env.transport s.tpCalls r = Outcome.res resp) →
      resp.statusCode ≠ 429 →
      (Client.Do c env s).2 = Except.ok resp ∧
      (Client.Do c env s).1.tpCalls = s.tpCalls + 1 ∧
      (Client.Do c env s).1.rl = s.rl) ∧
    (∀ e : Err, (∀ r, env.transport s.tpCalls r = Outcome.err e) →
      (Client.Do c env s).2 = Except.error e ∧
      (Client.Do c env s).1.tpCalls = s.tpCalls + 1 ∧
      (Client.Do c env s).1.rl = s.rl) := by
  have hDo : Client.Do c env s =
      Client.doLoop c env c.RetriesOn429.toNat
        (Client.doAttempt c env s).1 (Client.doAttempt c env s).2 := rfl
  constructor
  · intro resp htp hne
    have hne' : resp.statusCode ≠ statusTooManyRequests := hne
    have hA := doAttempt_res c env s resp hw (htp (attemptReq c s))
    rw [if_neg hne'] at hA
    have h2' : (Client.doAttempt c env s).2 = Except.ok resp := by rw [hA]
    have hTp : (Client.doAttempt c env s).1.tpCalls = s.tpCalls + 1 := by rw [hA]
    have hRl : (Client.doAttempt c env s).1.rl = s.rl := by rw [hA]
    have hL : Client.Do c env s = ((Client.doAttempt c env s).1, Except.ok resp) := by
      rw [hDo, h2', doLoop_non429 c env _ _ resp hne]
    exact ⟨by rw [hL], by rw [hL]; exact hTp, by rw [hL]; exact hRl⟩
  · intro e htp
    have hA := doAttempt_err c env s e hw (htp (attemptReq c s))
    have h2' : (Client.doAttempt c env s).2 = Except.error e := by rw [hA]
    have hTp : (Client.doAttempt c env s).1.tpCalls = s.tpCalls + 1 := by rw [hA]
    have hRl : (Client.doAttempt c env s).1.rl = s.rl := by rw [hA]
    have hL : Client.Do c env s = ((Client.doAttempt c env s).1, Except.error e) := by
      rw [hDo, h2', doLoop_error]
    exact ⟨by rw [hL], by rw [hL]; exact hTp, by rw [hL]; exact hRl⟩

/-- Witness for C5: a 200 response passes through after one call with
the limiter untouched, and a failing transport surfaces its error
after one call with the limiter untouched. -/
theorem C5_witness :
    ((Client.Do cW1 env200 s0W).2 = Except.ok resp200 ∧
     (Client.Do cW1 env200 s0W).1.tpCalls = s0W.tpCalls + 1 ∧
     (Client.Do cW1 env200 s0W).1.rl = s0W.rl) ∧
    ((Client.Do cW1 envErr s0W).2 = Except.error ("transport down") ∧
     (Client.Do cW1 envErr s0W).1.tpCalls = s0W.tpCalls + 1 ∧
     (Client.Do cW1 envErr s0W).1.rl = s0W.rl) :=
  ⟨(C5_pass_through cW1 env200 s0W (fun _ => rfl)).1 resp200 (fun _ => rfl) (by decide),
   (C5_pass_through cW1 envErr s0W (fun _ => rfl)).2 ("transport down") (fun _ => rfl)⟩

/-- Header() on an empty ReqID returns the bag untouched. -/
theorem header_of_empty (hl : List (String × String)) :
    ReqHeaders.Header { ReqID := "", h := hl } = ({ ReqID := "", h := hl }, hl) := by
  simp [ReqHeaders.Header]

/-- With an empty ReqID, pulling the client headers returns the bag
unchanged. -/
theorem pulledHeaders_empty (c : Client) (s : DState) (hid : c.ReqID = "") :
    pulledHeaders c s = s.clientH := by
  show (ReqHeaders.Header { ReqID := c.ReqID, h := s.clientH }).2 = s.clientH
  rw [hid, header_of_empty]

/-- With an empty ReqID, pulling the client headers leaves the bag
unchanged. -/
theorem clientBag_empty (c : Client) (s : DState) (hid : c.ReqID = "") :
    (ReqHeaders.Header { ReqID := c.ReqID, h := s.clientH }).1.h = s.clientH := by
  rw [hid, header_of_empty]

/-- With an empty ReqID, the outgoing request of one attempt is the
current request with the client's stored headers appended; all other
fields are untouched. -/
theorem attemptReq_empty (c : Client) (s : DState) (hid : c.ReqID = "") :
    attemptReq c s =
      { method := s.req.method, urlPath := s.req.urlPath, rawQuery := s.req.rawQuery,
        header := s.req.header ++ s.clientH } := by
  show reqWithHeaders s.req (pulledHeaders c s) = _
  rw [pulledHeaders_empty c s hid]
  rfl

/-- countKV of m concatenated copies of a bag. -/
theorem countKV_join_replicate (key v : String) (m : ℕ) (l : List (String × String)) :
    countKV key v (List.flatten (List.replicate m l)) = m * countKV key v l := by
  induction m with
  | zero => simp [countKV, Nat.zero_mul]
  | succ m ih =>
    simp [List.replicate_succ, countKV_append, ih]
    ring

/-- Under an always-429 transport and an empty ReqID, one attempt
appends the stored client headers to the request once, changes no
other request field, keeps the bag, and returns a 429 response. -/
theorem doAttempt_429_empty (c : Client) (env : Env) (s : DState)
    (hid : c.ReqID = "")
    (htp : ∀ n r, ∃ resp, env.transport n r = Outcome.res resp ∧ resp.statusCode = 429)
    (hw : ∀ n, env.bucketWait n = none) :
    ∃ resp : Response, resp.statusCode = 429 ∧
      (Client.doAttempt c env s).2 = Except.ok resp ∧
      (Client.doAttempt c env s).1.clientH = s.clientH ∧
      (Client.doAttempt c env s).1.req.method = s.req.method ∧
      (Client.doAttempt c env s).1.req.urlPath = s.req.urlPath ∧
      (Client.doAttempt c env s).1.req.rawQuery = s.req.rawQuery ∧
      (Client.doAttempt c env s).1.req.header = s.req.header ++ s.clientH := by
  obtain ⟨r1, h1, hEq⟩ := doAttempt_429 c env s htp hw
  refine ⟨r1, h1, by rw [hEq], ?_, ?_, ?_, ?_, ?_⟩
  · rw [hEq]
    exact clientBag_empty c s hid
  · rw [hEq]
    rw [attemptReq_empty c s hid]
  · rw [hEq]
    rw [attemptReq_empty c s hid]
  · rw [hEq]
    rw [attemptReq_empty c s hid]
  · rw [hEq]
    rw [attemptReq_empty c s hid]

/-- Under an always-429 transport and an empty ReqID, the loop with
fuel k appends the stored client headers to the request k more times
and changes no other request field. -/
theorem doLoop_429_frame (c : Client) (env : Env)
    (hid : c.ReqID = "")
    (htp : ∀ n r, ∃ resp, env.transport n r = Outcome.res resp ∧ resp.statusCode = 429)
    (hw : ∀ n, env.bucketWait n = none) :
    ∀ (k : ℕ) (s : DState) (resp : Response), resp.statusCode = 429 →
      (Client.doLoop c env k s (Except.ok resp)).1.clientH = s.clientH ∧
      (Client.doLoop c env k s (Except.ok resp)).1.req.method = s.req.method ∧
      (Client.doLoop c env k s (Except.ok resp)).1.req.urlPath = s.req.urlPath ∧
      (Client.doLoop c env k s (Except.ok resp)).1.req.rawQuery = s.req.rawQuery ∧
      (Client.doLoop c env k s (Except.ok resp)).1.req.header =
        s.req.header ++ List.flatten (List.replicate k s.clientH) := by
  intro k
  induction k with
  | zero =>
    intro s resp h429
    refine ⟨rfl, rfl, rfl, rfl, ?_⟩
    simp [Client.doLoop]
  | succ k ih =>
    intro s resp h429
    obtain ⟨r1, h1, h2', hc, hm, hu, hq, hh⟩ := doAttempt_429_empty c env s hid htp hw
    have hstep : Client.doLoop c env (k + 1) s (Except.ok resp) =
        Client.doLoop c env k (Client.doAttempt c env s).1 (Client.doAttempt c env s).2 := by
      simp [Client.doLoop, statusTooManyRequests, h429]
    obtain ⟨ihc, ihm, ihu, ihq, ihh⟩ := ih (Client.doAttempt c env s).1 r1 h1
    refine ⟨?_, ?_, ?_, ?_, ?_⟩
    · rw [hstep, h2', ihc, hc]
    · rw [hstep, h2', ihm, hm]
    · rw [hstep, h2', ihu, hu]
    · rw [hstep, h2', ihq, hq]
    · rw [hstep, h2', ihh, hh, hc]
      simp [List.replicate_succ, List.append_assoc]

/-- Counterexample for C10 as stated: a dispatch with zero retries
(single transport call, 200 response) on a request that already holds
the client's stored header value leaves that value present twice, not
retries + 1 = 1 times. -/
theorem C10_counterexample :
    (Client.Do cW1 env200 sC10).1.tpCalls = 1 ∧
    countKV ("X-Foo") ("foo") (Client.Do cW1 env200 sC10).1.req.header = 2 := by
  exact ⟨rfl, rfl⟩

/-- Claim C10 (amended): every attempt appends (Add) the client's
stored headers to the same caller-supplied request in place, so with
an empty ReqID and k retries forced by an always-429 transport the
multiplicity of each stored pair on the request grows by (k + 1) times
its multiplicity in the client's bag (so a value stored once and
absent from the request beforehand appears exactly k + 1 times); the
request's other fields are unchanged. -/
theorem C10_request_mutation (c : Client) (env : Env) (s : DState) (k : ℕ)
    (hid : c.ReqID = "")
    (hk : c.RetriesOn429 = (k : ℤ))
    (htp : ∀ n r, ∃ resp, env.transport n r = Outcome.res resp ∧ resp.statusCode = 429)
    (hw : ∀ n, env.bucketWait n = none) :
    (∀ key v, countKV key v (Client.Do c env s).1.req.header =
      countKV key v s.req.header + (k + 1) * countKV key v s.clientH) ∧
    (Client.Do c env s).1.req.method = s.req.method ∧
    (Client.Do c env s).1.req.urlPath = s.req.urlPath ∧
    (Client.Do c env s).1.req.rawQuery = s.req.rawQuery := by
  have hfuel : c.RetriesOn429.toNat = k := by omega
  have hDo : Client.Do c env s =
      Client.doLoop c env k (Client.doAttempt c env s).1 (Client.doAttempt c env s).2 := by
    simp [Client.Do, hfuel]
  obtain ⟨r1, h1, h2', hc, hm, hu, hq, hh⟩ := doAttempt_429_empty c env s hid htp hw
  obtain ⟨hLc, hLm, hLu, hLq, hLh⟩ :=
    doLoop_429_frame c env hid htp hw k (Client.doAttempt c env s).1 r1 h1
  refine ⟨?_, ?_, ?_, ?_⟩
  · intro key v
    rw [hDo, h2', hLh, hh, hc, countKV_append, countKV_append, countKV_join_replicate]
    ring
  · rw [hDo, h2', hLm, hm]
  · rw [hDo, h2', hLu, hu]
  · rw [hDo, h2', hLq, hq]

/-- Witness for the amended C10: one retry (two attempts) on a clean
request leaves the single stored client header value on it twice. -/
theorem C10_witness :
    countKV ("X-Foo") ("foo") (Client.Do cW10 env429 sC10W).1.req.header =
      countKV ("X-Foo") ("foo") sC10W.req.header +
        (1 + 1) * countKV ("X-Foo") ("foo") sC10W.clientH ∧
    (Client.Do cW10 env429 sC10W).1.req.method = sC10W.req.method :=
  ⟨(C10_request_mutation cW10 env429 sC10W 1 rfl rfl
      (fun _ _ => ⟨{ statusCode := 429, status := "429 Too Many Requests", header := [] },
        rfl, rfl⟩)
      (fun _ => rfl)).1 ("X-Foo") ("foo"),
   (C10_request_mutation cW10 env429 sC10W 1 rfl rfl
      (fun _ _ => ⟨{ statusCode := 429, status := "429 Too Many Requests", header := [] },
        rfl, rfl⟩)
      (fun _ => rfl)).2.1⟩
